import Mathlib

/-!
Verification of the senweaver-oauth authorization-flow engine and adapters.

Shallow embedding of the Python sources:
 * `senweaver_oauth/model/auth_response.py`, `auth_token.py`, `auth_user.py`,
   `auth_callback.py`
 * `senweaver_oauth/enums/auth_gender.py`, `response_status.py`
 * `senweaver_oauth/source/base.py` (`BaseAuthSource.authorize` / `login` /
   `get_authorize_params` / `build_authorize_url`)
 * `senweaver_oauth/source/alipay.py`, `github.py`, `twitter.py`,
   `zxxk.py`, `jd.py` (token exchange, user info, `_sign`, `aes_encrypt`)

Python `None`-able strings are modelled as `Option String`; Python truthiness
of such values is `pyTruthy`.  Machine-independent `int`s are `Int`.  Code
that can raise returns `Except PyExn _`.  Dictionaries are association lists.
Network responses are passed in as already-parsed values, since every claim
below quantifies over the possible parsed payloads.
-/

namespace SenweaverOAuth

/-- ASCII lower-casing (Python `str.lower()`; the values the code compares
against are ASCII or CJK, which Python's Unicode lower-casing also leaves
pointwise). -/
def pyLower (s : String) : String := String.mk (s.toList.map Char.toLower)

/-- ASCII upper-casing (Python `str.upper()`; applied to hex digests here). -/
def pyUpper (s : String) : String := String.mk (s.toList.map Char.toUpper)

/-- Python truthiness of an `Optional[str]`: `None` and `""` are falsy. -/
def pyTruthy : Option String → Bool
  | none => false
  | some s => !s.isEmpty

/-- Python `str(x)` for an `Optional[str]` (an f-string renders `None` as `"None"`). -/
def pyStr : Option String → String
  | none => "None"
  | some s => s

/-- Python `str(x)` for an `Optional[int]` (`str(None) = "None"`). -/
def pyStrInt : Option Int → String
  | none => "None"
  | some i => toString i

/-- Python `a or b` for an optional string `a` with string default `b`. -/
def pyOrStr (a : Option String) (b : String) : String :=
  match a with
  | none => b
  | some s => if s.isEmpty then b else s

/-- `d.get(k)` on a Python dict modelled as an association list whose values
are `Optional[str]`; a missing key and a `None` value both give `None`. -/
def dictGet (d : List (String × Option String)) (k : String) : Option String :=
  match d.find? (fun p => p.1 = k) with
  | some p => p.2
  | none => none

/-- Exceptions that the embedded code can raise. -/
inductive PyExn where
  | typeError (msg : String)
  | valueError (msg : String)
  | attributeError (msg : String)
deriving DecidableEq, Repr

/-- `senweaver_oauth.enums.response_status.ResponseStatus`. -/
inductive ResponseStatus where
  | SUCCESS
  | FAILURE
  | NOT_IMPLEMENTED
  | TIMEOUT
  | UNAUTHORIZED
  | ERROR
deriving DecidableEq, Repr

/-- `senweaver_oauth.enums.auth_gender.AuthGender`. -/
inductive AuthGender where
  | UNKNOWN
  | MALE
  | FEMALE
deriving DecidableEq, Repr

/-- `AuthGender.get_gender` from `enums/auth_gender.py`: `None` maps to
`UNKNOWN`; otherwise the value is string-converted and lower-cased and looked
up in the two membership tables; anything unrecognized is `UNKNOWN`. -/
def AuthGender.get_gender (gender_code : Option String) : AuthGender :=
  match gender_code with
  | none => AuthGender.UNKNOWN
  | some s =>
    let gender_str := pyLower s
    if gender_str = "1" ∨ gender_str = "m" ∨ gender_str = "male" ∨ gender_str = "男" then
      AuthGender.MALE
    else if gender_str = "2" ∨ gender_str = "f" ∨ gender_str = "female" ∨ gender_str = "女" then
      AuthGender.FEMALE
    else
      AuthGender.UNKNOWN

/-- `senweaver_oauth.model.auth_token.AuthToken` (the fields the claims
touch; `create_time` is kept abstract as a timestamp, see `expired`). -/
structure AuthToken where
  access_token : String
  token_type : String
  expires_in : Option Int
  refresh_token : Option String := none
  uid : Option String := none
  open_id : Option String := none
  scope : Option String := none
  code : Option String := none
deriving DecidableEq, Repr

/-- `AuthToken.expired` from `model/auth_token.py`.  When `expires_in` is
`None` or `≤ 0` it returns `False`.  Otherwise the source evaluates
`datetime.now() > self.create_time.timestamp() + self.expires_in`, comparing
a `datetime` object with a `float`, which raises `TypeError` in Python. -/
def AuthToken.expired (t : AuthToken) : Except PyExn Bool :=
  match t.expires_in with
  | none => Except.ok false
  | some e =>
    if e ≤ 0 then
      Except.ok false
    else
      Except.error (PyExn.typeError
        "not supported between instances of datetime.datetime and float")

/-- `senweaver_oauth.model.auth_user.AuthUser` (fields the claims touch). -/
structure AuthUser where
  uuid : String
  username : Option String
  nickname : Option String := none
  avatar : Option String := none
  blog : Option String := none
  company : Option String := none
  location : Option String := none
  email : Option String := none
  mobile : Option String := none
  remark : Option String := none
  gender : AuthGender := AuthGender.UNKNOWN
  source : Option String := none
  token : Option AuthToken := none
  service_url : Option String := none
deriving DecidableEq, Repr

/-- `senweaver_oauth.model.auth_callback.AuthCallback` dataclass. -/
structure AuthCallback where
  code : Option String := none
  auth_code : Option String := none
  state : Option String := none
  authorization_code : Option String := none
  oauth_token : Option String := none
  oauth_verifier : Option String := none
  user : Option String := none
  error : Option String := none
  error_description : Option String := none
  error_uri : Option String := none
  extras : List (String × Option String) := []
deriving DecidableEq, Repr

/-- The known-field set computed by `AuthCallback.build`:
`set(cls.__annotations__.keys()) - {'extras'}`.  The class annotations
include the `ClassVar` line `_known_fields: ClassVar[set] = None`, so the
set contains `"_known_fields"` in addition to the ten dataclass fields. -/
def AuthCallback.knownFields : List String :=
  ["code", "auth_code", "state", "authorization_code", "oauth_token",
   "oauth_verifier", "user", "error", "error_description", "error_uri",
   "_known_fields"]

/-- The keyword arguments accepted by the dataclass-generated
`AuthCallback.__init__` (the ten dataclass fields plus `extras`;
`ClassVar` annotations are excluded by `@dataclass`). -/
def AuthCallback.initFields : List String :=
  ["code", "auth_code", "state", "authorization_code", "oauth_token",
   "oauth_verifier", "user", "error", "error_description", "error_uri",
   "extras"]

/-- `AuthCallback.build` from `model/auth_callback.py`: dict keys in the
known-field set become keyword arguments of `cls(**kwargs)`, the rest go to
`extras`.  Because the known-field set contains `"_known_fields"` while
`__init__` does not accept it, a map carrying that key makes `cls(**kwargs)`
raise `TypeError`.  Otherwise the fields are populated from the dict and
`__post_init__` copies `auth_code` into `code` when `code` is falsy and
`auth_code` is truthy. -/
def AuthCallback.build (data : List (String × Option String)) :
    Except PyExn AuthCallback :=
  let kwargKeys := (data.map Prod.fst).filter
    (fun k => AuthCallback.knownFields.contains k)
  match kwargKeys.find? (fun k => !AuthCallback.initFields.contains k) with
  | some k =>
    Except.error (PyExn.typeError
      ("AuthCallback.__init__() got an unexpected keyword argument '" ++ k ++ "'"))
  | none =>
    let cb : AuthCallback :=
      { code := dictGet data "code"
        auth_code := dictGet data "auth_code"
        state := dictGet data "state"
        authorization_code := dictGet data "authorization_code"
        oauth_token := dictGet data "oauth_token"
        oauth_verifier := dictGet data "oauth_verifier"
        user := dictGet data "user"
        error := dictGet data "error"
        error_description := dictGet data "error_description"
        error_uri := dictGet data "error_uri"
        extras := data.filter (fun p => !AuthCallback.knownFields.contains p.1) }
    Except.ok (if !pyTruthy cb.code && pyTruthy cb.auth_code then
      { cb with code := cb.auth_code }
    else
      cb)

/-- `senweaver_oauth.config.AuthConfig` (fields the claims touch). -/
structure AuthConfig where
  client_id : String
  client_secret : String
  redirect_uri : Option String := none
  public_key : Option String := none
  scope : Option String := none
  state : Option String := none
  ignore_check_state : Bool := false
deriving DecidableEq, Repr

/-- A value that Python code stores in a response `code` field: the library
declares the field as `int`, but some adapters pass provider string codes
through unchanged.  Python `!=` between an int and a str is well defined
(always unequal), which this type mirrors. -/
inductive PyVal where
  | int (i : Int)
  | str (s : String)
deriving DecidableEq, Repr

/-- Observable adapter steps performed by a `login` call. -/
inductive FlowEvent where
  | tokenExchange
  | userInfo
deriving DecidableEq, Repr

/-- `senweaver_oauth.model.auth_response.AuthResponse` dataclass: only `code`
is required; `data` defaults to `None`, `status` defaults to `SUCCESS` and
`message` to `None`.  The `code` field is declared `int` but Python does not
enforce that, and some adapter paths pass provider string codes through, so
it is modelled as `PyVal`. -/
structure AuthResponse (T : Type) where
  code : PyVal
  data : Option T := none
  status : ResponseStatus := ResponseStatus.SUCCESS
  message : Option String := none
deriving DecidableEq, Repr

/-- `AuthResponse.success`: code 200, the given payload (itself optional,
defaulting to `None`), `SUCCESS` status, message defaulting to `'Success'`
under Python `or`. -/
def AuthResponse.success {T : Type} (data : Option T) (message : Option String) :
    AuthResponse T :=
  { code := PyVal.int 200, data := data, status := ResponseStatus.SUCCESS,
    message := some (pyOrStr message "Success") }

/-- `AuthResponse.error`: given message, code defaulting to 500 at call sites
that omit it, `ERROR` status, no payload. -/
def AuthResponse.error {T : Type} (message : String) (code : Int) : AuthResponse T :=
  { code := PyVal.int code, data := none, status := ResponseStatus.ERROR,
    message := some message }

/-- `AuthResponse.failure`: given message, code defaulting to 400 at call
sites that omit it, `FAILURE` status, no payload. -/
def AuthResponse.failure {T : Type} (message : String) (code : Int) : AuthResponse T :=
  { code := PyVal.int code, data := none, status := ResponseStatus.FAILURE,
    message := some message }

/-- `AuthResponse.unauthorized`: code 401, `UNAUTHORIZED` status, no payload. -/
def AuthResponse.unauthorized {T : Type} (message : String) : AuthResponse T :=
  { code := PyVal.int 401, data := none, status := ResponseStatus.UNAUTHORIZED,
    message := some message }

/-- `AuthResponse.not_implemented`: code 501, `NOT_IMPLEMENTED` status, no payload. -/
def AuthResponse.not_implemented {T : Type} (message : String) : AuthResponse T :=
  { code := PyVal.int 501, data := none, status := ResponseStatus.NOT_IMPLEMENTED,
    message := some message }

/-- `AuthResponse.timeout`: code 408, `TIMEOUT` status, no payload. -/
def AuthResponse.timeout {T : Type} (message : String) : AuthResponse T :=
  { code := PyVal.int 408, data := none, status := ResponseStatus.TIMEOUT,
    message := some message }

/-- The token-exchange-then-user-info tail of `BaseAuthSource.login`
(`source/base.py`): call `get_access_token` once; when its `code` is not 200
return a response copying `code`/`status`/`message` with no payload and do
not call `get_user_info`; otherwise call `get_user_info` once, forwarding
`kwargs`, and return its result.  The second component records the adapter
steps performed, in order. -/
def loginTokenThenUser {K : Type}
    (get_access_token : AuthCallback → AuthResponse AuthToken)
    (get_user_info : Option AuthToken → K → AuthResponse AuthUser)
    (callback_params : AuthCallback) (kwargs : K) :
    AuthResponse AuthUser × List FlowEvent :=
  let token_response := get_access_token callback_params
  if token_response.code ≠ PyVal.int 200 then
    ({ code := token_response.code, data := none, status := token_response.status,
       message := token_response.message }, [FlowEvent.tokenExchange])
  else
    (get_user_info token_response.data kwargs, [FlowEvent.tokenExchange, FlowEvent.userInfo])

/-- `BaseAuthSource.login` (`source/base.py`): build the callback record —
`AuthCallback.build` can raise, and `login` has no try/except, so the
exception propagates to the caller.  On success, when CSRF checking is not
disabled and the callback's `state` is truthy, look the state up in the
cache and fail when the cached value is falsy; otherwise proceed to token
exchange and user info (`loginTokenThenUser`).  `cache_get` is the state
cache's `get`; an expired or absent entry yields `none`. -/
def login {K : Type} (config : AuthConfig) (cache_get : String → Option String)
    (get_access_token : AuthCallback → AuthResponse AuthToken)
    (get_user_info : Option AuthToken → K → AuthResponse AuthUser)
    (callback : List (String × Option String)) (kwargs : K) :
    Except PyExn (AuthResponse AuthUser × List FlowEvent) :=
  match AuthCallback.build callback with
  | Except.error e => Except.error e
  | Except.ok callback_params =>
    if !config.ignore_check_state && pyTruthy callback_params.state then
      -- in this branch `callback_params.state = some s` with `s` nonempty
      if !pyTruthy (cache_get (callback_params.state.getD "")) then
        Except.ok (AuthResponse.failure "state参数不匹配或已过期，请重新授权" 400, [])
      else
        Except.ok (loginTokenThenUser get_access_token get_user_info callback_params kwargs)
    else
      Except.ok (loginTokenThenUser get_access_token get_user_info callback_params kwargs)

/-- One `cache_store.set(key, value, timeout)` call. -/
structure CacheWrite where
  key : String
  value : String
  timeout : Option Int
deriving DecidableEq, Repr

/-- `BaseAuthSource.get_scopes`: the configured scope when truthy, otherwise
the default scope table entry for the source (passed in as `default_scope`,
the value of `AuthScope.get_scope_str(source.name, source.scope_delimiter)`). -/
def get_scopes (config : AuthConfig) (default_scope : String) : String :=
  if pyTruthy config.scope then pyStr config.scope else default_scope

/-- `BaseAuthSource.get_authorize_params` (`source/base.py`): generate a
fresh state when the argument is falsy (`fresh_uuid` stands for the
`uuid.uuid4()` draw), write it to the state cache with TTL 180, and build
the parameter dict, appending `scope` only when truthy.  Returns the params
and the cache writes performed. -/
def get_authorize_params (config : AuthConfig) (default_scope : String)
    (state : Option String) (fresh_uuid : String) :
    List (String × Option String) × List CacheWrite :=
  let st := if pyTruthy state then pyStr state else fresh_uuid
  let scope := get_scopes config default_scope
  let params : List (String × Option String) :=
    [("response_type", some "code"), ("client_id", some config.client_id),
     ("redirect_uri", config.redirect_uri), ("state", some st)]
  let params := if !scope.isEmpty then params ++ [("scope", some scope)] else params
  (params, [⟨st, st, some 180⟩])

/-- `BaseAuthSource.build_authorize_url`: `&`-join `k=v` pairs onto the
authorize endpoint (an f-string renders a `None` value as `"None"`). -/
def build_authorize_url (authorize_url : String) (params : List (String × Option String)) :
    String :=
  let query_str := String.intercalate "&" (params.map (fun p => p.1 ++ "=" ++ pyStr p.2))
  authorize_url ++ "?" ++ query_str

/-- `BaseAuthSource.authorize` (`source/base.py`): when no truthy state is
supplied draw a fresh one (`fresh_uuid`), write it to the state cache with
TTL 180, then call `get_authorize_params` with that state (which performs
its own cache write; `fresh_uuid2` stands for the draw it would make on a
falsy state) and render the URL.  Returns the URL and the cache writes
performed, in order. -/
def authorize (config : AuthConfig) (default_scope : String) (authorize_url : String)
    (state : Option String) (fresh_uuid fresh_uuid2 : String) :
    String × List CacheWrite :=
  let st := if pyTruthy state then pyStr state else fresh_uuid
  let w0 : CacheWrite := ⟨st, st, some 180⟩
  let pr := get_authorize_params config default_scope (some st) fresh_uuid2
  (build_authorize_url authorize_url pr.1, w0 :: pr.2)

/-- `d.get(k, dflt)` on a Python dict with string values. -/
def dictGetD (d : List (String × String)) (k : String) (dflt : String) : String :=
  match d.find? (fun p => p.1 = k) with
  | some p => p.2
  | none => dflt

/-- The `error_response` sub-object of an Alipay reply (`code`/`msg`). -/
structure AlipayError where
  code : Option Int := none
  msg : Option String := none
deriving DecidableEq, Repr

/-- The `alipay_system_oauth_token_response` sub-object of an Alipay token
reply. -/
structure AlipayTokenData where
  access_token : Option String := none
  expires_in : Option Int := none
  refresh_token : Option String := none
  open_id : Option String := none
deriving DecidableEq, Repr

/-- A parsed Alipay token-endpoint reply: either sub-object may be absent. -/
structure AlipayTokenHttp where
  error_response : Option AlipayError := none
  alipay_system_oauth_token_response : Option AlipayTokenData := none
deriving DecidableEq, Repr

/-- `AuthAlipaySource.get_access_token` (`source/alipay.py`), as a function
of the parsed HTTP reply (request construction and signing do not influence
the returned value).  On an `error_response` the source constructs
`AuthTokenResponse(code=..., message=...)` directly, leaving `status` at its
dataclass default `SUCCESS` and `data` at `None`. -/
def alipay_get_access_token (response : AlipayTokenHttp) : AuthResponse AuthToken :=
  let data := response.alipay_system_oauth_token_response.getD {}
  match response.error_response with
  | some error =>
    { code := PyVal.int (error.code.getD 400), data := none,
      status := ResponseStatus.SUCCESS,
      message := some (error.msg.getD "获取访问令牌失败") }
  | none =>
    let token : AuthToken :=
      { access_token := data.access_token.getD ""
        token_type := "Bearer"
        expires_in := some (data.expires_in.getD 0)
        refresh_token := some (data.refresh_token.getD "")
        open_id := some (data.open_id.getD "") }
    { code := PyVal.int 200, data := some token, status := ResponseStatus.SUCCESS,
      message := some "获取访问令牌成功" }

/-- The `alipay_user_info_share_response` sub-object of an Alipay user-info
reply. -/
structure AlipayUserData where
  code : Option String := none
  msg : Option String := none
  nick_name : Option String := none
  avatar : Option String := none
  gender : Option String := none
  mobile : Option String := none
  province : Option String := none
  city : Option String := none
deriving DecidableEq, Repr

/-- A parsed Alipay user-info reply. -/
structure AlipayUserHttp where
  alipay_user_info_share_response : Option AlipayUserData := none
deriving DecidableEq, Repr

/-- `AuthAlipaySource._get_gender`: `"m"` is male, `"f"` female, anything
else unknown. -/
def alipay_get_gender (gender : String) : AuthGender :=
  if gender = "m" then AuthGender.MALE
  else if gender = "f" then AuthGender.FEMALE
  else AuthGender.UNKNOWN

/-- `AuthAlipaySource.get_user_info` (`source/alipay.py`), as a function of
the parsed HTTP reply.  When `data.get("code") != "10000"` the source
constructs `AuthUserResponse(code=data.get("code", 400), message=...)`
directly (string code passed through, `status` left at `SUCCESS`, no
payload); otherwise it builds the user, whose `uuid` is
`f"{self.source.name}_{token.open_id}"`. -/
def alipay_get_user_info (source_name : String) (token : AuthToken)
    (response : AlipayUserHttp) : AuthResponse AuthUser :=
  let data := response.alipay_user_info_share_response.getD {}
  if data.code ≠ some "10000" then
    { code := match data.code with
        | some s => PyVal.str s
        | none => PyVal.int 400,
      data := none, status := ResponseStatus.SUCCESS,
      message := some (data.msg.getD "获取用户信息失败") }
  else
    let user : AuthUser :=
      { uuid := source_name ++ "_" ++ pyStr token.open_id
        username := some (data.nick_name.getD "")
        nickname := some (data.nick_name.getD "")
        avatar := some (data.avatar.getD "")
        gender := alipay_get_gender (data.gender.getD "")
        email := some ""
        mobile := some (data.mobile.getD "")
        location := some ((data.province.getD "") ++ (data.city.getD ""))
        token := some token
        source := some source_name }
    { code := PyVal.int 200, data := some user, status := ResponseStatus.SUCCESS,
      message := some "获取用户信息成功" }

/-- A parsed GitHub user-info reply (`message` is present only on errors). -/
structure GithubUserHttp where
  message : Option String := none
  id : Option Int := none
  login : Option String := none
  name : Option String := none
  avatar_url : Option String := none
  blog : Option String := none
  company : Option String := none
  location : Option String := none
  email : Option String := none
  bio : Option String := none
deriving DecidableEq, Repr

/-- `AuthGithubSource.get_user_info` (`source/github.py`), as a function of
the parsed HTTP reply.  Note the success path sets
`uuid=str(response.get('id'))` — the raw provider id, with no provider-name
qualification (`str(None)` is `"None"` when the id is missing). -/
def github_get_user_info (source_name : String) (token : AuthToken)
    (response : GithubUserHttp) : AuthResponse AuthUser :=
  if response.message.isSome ∧ response.message ≠ some "success" then
    AuthResponse.failure (response.message.getD "获取用户信息失败") 400
  else
    let user : AuthUser :=
      { uuid := pyStrInt response.id
        username := response.login
        nickname := response.name
        avatar := response.avatar_url
        blog := response.blog
        company := response.company
        location := response.location
        email := response.email
        remark := response.bio
        gender := AuthGender.UNKNOWN
        source := some source_name
        token := some token }
    AuthResponse.success (some user) none

/-- The field names of the `AuthToken` dataclass (`model/auth_token.py`),
in declaration order; a keyword argument outside this list makes
`AuthToken(...)` raise `TypeError`. -/
def authTokenFields : List String :=
  ["access_token", "token_type", "expires_in", "refresh_token", "uid",
   "open_id", "access_code", "union_id", "scope", "id_token", "mac_key",
   "mac_algorithm", "code", "oauth_token", "oauth_token_secret",
   "create_time", "extras"]

/-- The first keyword argument of a Python dataclass call that is not a
declared field (the one `__init__` reports in its `TypeError`). -/
def dataclassUnexpectedKwarg (fields : List String) (kwargs : List String) :
    Option String :=
  kwargs.find? (fun k => !fields.contains k)

/-- The `AuthToken(...)` call in `AuthTwitterSource.get_access_token`
(`source/twitter.py`): it passes the keyword arguments `access_token`,
`token_type`, `token_secret`, `user_id`, `screen_name`.  The last three are
not fields of the `AuthToken` dataclass, so the call raises `TypeError`. -/
def twitterTokenConstruct (response_data : List (String × String)) :
    Except PyExn AuthToken :=
  match dataclassUnexpectedKwarg authTokenFields
      ["access_token", "token_type", "token_secret", "user_id", "screen_name"] with
  | some k =>
    Except.error (PyExn.typeError
      ("AuthToken.__init__() got an unexpected keyword argument '" ++ k ++ "'"))
  | none =>
    -- unreachable: "token_secret" is not an AuthToken field
    Except.ok { access_token := dictGetD response_data "oauth_token" ""
                token_type := "OAuth1.0a"
                expires_in := none }

/-- `AuthTwitterSource.get_access_token` (`source/twitter.py`), as a function
of the cached request-token secret and the parsed (`parse_qsl`) response
body.  The method has no try/except, so the `TypeError` raised by the
`AuthToken(...)` call propagates to the caller (`BaseAuthSource.login`).
Header construction and the HTTP post are elided: they do not influence the
returned value. -/
def twitter_get_access_token (cache_get : String → Option String)
    (callback : AuthCallback) (response_data : List (String × String)) :
    Except PyExn (AuthResponse AuthToken) :=
  let cache_key := "twitter_token_secret_" ++ pyStr callback.oauth_token
  let oauth_token_secret := cache_get cache_key
  if !pyTruthy oauth_token_secret then
    Except.ok { code := PyVal.int 400, data := none,
                status := ResponseStatus.SUCCESS,
                message := some "获取访问令牌失败: 未找到oauth_token_secret" }
  else
    match twitterTokenConstruct response_data with
    | Except.error e => Except.error e
    | Except.ok token =>
      Except.ok { code := PyVal.int 200, data := some token,
                  status := ResponseStatus.SUCCESS,
                  message := some "获取访问令牌成功" }

/-- `AuthTwitterSource.get_user_info` (`source/twitter.py`): its first
statement builds the OAuth header from `token.token_secret`, but the
`AuthToken` dataclass has no `token_secret` field, so every call raises
`AttributeError` before any request is made; there is no try/except. -/
def twitter_get_user_info (token : AuthToken) : Except PyExn (AuthResponse AuthUser) :=
  Except.error (PyExn.attributeError
    "'AuthToken' object has no attribute 'token_secret'")

/-- Python string `<` on code-point lists (lexicographic). -/
def strLtb : List Char → List Char → Bool
  | _, [] => false
  | [], _ :: _ => true
  | a :: as, b :: bs =>
    if a.toNat < b.toNat then true
    else if b.toNat < a.toNat then false
    else strLtb as bs

/-- Python `a < b` on strings. -/
def pyStrLt (a b : String) : Bool := strLtb a.toList b.toList

/-- Python `a <= b` on strings (`a <= b` iff `not (b < a)` for a total order). -/
def pyStrLe (a b : String) : Bool := !(strLtb b.toList a.toList)

/-- Python tuple comparison `(k1, v1) <= (k2, v2)` on string pairs, as used
by `sorted(params.items())`. -/
def tupLe (p q : String × String) : Bool :=
  pyStrLt p.1 q.1 || (p.1 = q.1 && pyStrLe p.2 q.2)

/-- Key-only comparison, as used by `sorted(..., key=lambda x: x[0])`. -/
def keyLe (p q : String × String) : Bool := pyStrLe p.1 q.1

/-- UTF-8 encoding of a string as a byte list (Python `s.encode("utf-8")`). -/
def utf8EncodeChar (c : Char) : List Nat :=
  let n := c.toNat
  if n < 128 then [n]
  else if n < 2048 then [192 + n / 64, 128 + n % 64]
  else if n < 65536 then [224 + n / 4096, 128 + (n / 64) % 64, 128 + n % 64]
  else [240 + n / 262144, 128 + (n / 4096) % 64, 128 + (n / 64) % 64, 128 + n % 64]

/-- UTF-8 bytes of a string. -/
def utf8Bytes (s : String) : List Nat := (s.toList.map utf8EncodeChar).flatten

/-- Truncation to an unsigned 32-bit value. -/
def u32 (n : Nat) : Nat := n % 4294967296

/-- 32-bit left rotation. -/
def rotl32 (x s : Nat) : Nat := (((x <<< s) % 4294967296) ||| (x >>> (32 - s)))

/-- The MD5 sine-derived round constants (RFC 1321). -/
def md5K : List Nat :=
  [3614090360, 3905402710, 606105819, 3250441966, 4118548399, 1200080426, 2821735955, 4249261313,
   1770035416, 2336552879, 4294925233, 2304563134, 1804603682, 4254626195, 2792965006, 1236535329,
   4129170786, 3225465664, 643717713, 3921069994, 3593408605, 38016083, 3634488961, 3889429448,
   568446438, 3275163606, 4107603335, 1163531501, 2850285829, 4243563512, 1735328473, 2368359562,
   4294588738, 2272392833, 1839030562, 4259657740, 2763975236, 1272893353, 4139469664, 3200236656,
   681279174, 3936430074, 3572445317, 76029189, 3654602809, 3873151461, 530742520, 3299628645,
   4096336452, 1126891415, 2878612391, 4237533241, 1700485571, 2399980690, 4293915773, 2240044497,
   1873313359, 4264355552, 2734768916, 1309151649, 4149444226, 3174756917, 718787259, 3951481745]

/-- The MD5 per-round shift amounts (RFC 1321). -/
def md5S : List Nat :=
  [7, 12, 17, 22, 7, 12, 17, 22, 7, 12, 17, 22, 7, 12, 17, 22,
   5, 9, 14, 20, 5, 9, 14, 20, 5, 9, 14, 20, 5, 9, 14, 20,
   4, 11, 16, 23, 4, 11, 16, 23, 4, 11, 16, 23, 4, 11, 16, 23,
   6, 10, 15, 21, 6, 10, 15, 21, 6, 10, 15, 21, 6, 10, 15, 21]

/-- MD5 working state. -/
structure MD5State where
  a : Nat
  b : Nat
  c : Nat
  d : Nat
deriving DecidableEq, Repr

/-- MD5 padding: append `0x80`, zero-fill to 56 mod 64, then the original
bit length as 8 little-endian bytes. -/
def md5Pad (msg : List Nat) : List Nat :=
  let len := msg.length
  let zeros := (64 + 56 - (len + 1) % 64) % 64
  msg ++ [128] ++ List.replicate zeros 0 ++
    (List.range 8).map (fun i => (8 * len >>> (8 * i)) % 256)

/-- Fuel-driven worker for `chunksOf` (structural recursion on the fuel, so
that it evaluates inside the kernel). -/
def chunksOfAux (k : Nat) : Nat → List Nat → List (List Nat)
  | _, [] => []
  | 0, _ => []
  | fuel + 1, l => l.take k :: chunksOfAux k fuel (l.drop k)

/-- Split a list into chunks of `k` elements (`k > 0`; the last chunk may be
short).  `l.length` steps of fuel suffice since each step drops `k ≥ 1`
elements. -/
def chunksOf (k : Nat) (l : List Nat) : List (List Nat) :=
  chunksOfAux k l.length l

/-- The `i`-th little-endian 32-bit word of a 64-byte chunk. -/
def leWord (chunk : List Nat) (i : Nat) : Nat :=
  chunk.getD (4 * i) 0 + 256 * chunk.getD (4 * i + 1) 0 +
    65536 * chunk.getD (4 * i + 2) 0 + 16777216 * chunk.getD (4 * i + 3) 0

/-- One MD5 round (round index `i`, message words `m`). -/
def md5Round (m : Nat → Nat) (st : MD5State) (i : Nat) : MD5State :=
  let mask : Nat := 4294967295
  let fg : Nat × Nat :=
    if i < 16 then ((st.b &&& st.c) ||| ((mask ^^^ st.b) &&& st.d), i)
    else if i < 32 then ((st.d &&& st.b) ||| ((mask ^^^ st.d) &&& st.c), (5 * i + 1) % 16)
    else if i < 48 then (st.b ^^^ st.c ^^^ st.d, (3 * i + 5) % 16)
    else (st.c ^^^ (st.b ||| (mask ^^^ st.d)), (7 * i) % 16)
  let f := u32 (fg.1 + st.a + md5K.getD i 0 + m fg.2)
  { a := st.d, b := u32 (st.b + rotl32 f (md5S.getD i 0)), c := st.b, d := st.c }

/-- Process one 64-byte chunk. -/
def md5Chunk (st : MD5State) (chunk : List Nat) : MD5State :=
  let r := (List.range 64).foldl (md5Round (leWord chunk)) st
  { a := u32 (st.a + r.a), b := u32 (st.b + r.b), c := u32 (st.c + r.c), d := u32 (st.d + r.d) }

/-- The 4 little-endian bytes of a 32-bit word. -/
def leBytes4 (n : Nat) : List Nat :=
  [n % 256, (n >>> 8) % 256, (n >>> 16) % 256, (n >>> 24) % 256]

/-- The 16 MD5 digest bytes of a byte list (RFC 1321). -/
def md5Bytes (msg : List Nat) : List Nat :=
  let st := (chunksOf 64 (md5Pad msg)).foldl md5Chunk
    { a := 1732584193, b := 4023233417, c := 2562383102, d := 271733878 }
  leBytes4 st.a ++ leBytes4 st.b ++ leBytes4 st.c ++ leBytes4 st.d

/-- A byte rendered as two lowercase hex digits. -/
def hexByte (b : Nat) : String :=
  let digit := fun n => "0123456789abcdef".toList.getD n '0'
  String.mk [digit (b / 16), digit (b % 16)]

/-- Python `hashlib.md5(s.encode("utf-8")).hexdigest()`. -/
def md5Hex (s : String) : String := String.join ((md5Bytes (utf8Bytes s)).map hexByte)

/-- `hexdigest().upper()`. -/
def md5HexUpper (s : String) : String := pyUpper (md5Hex s)

/-- `AuthZxxkSource._sign` (`source/zxxk.py`): sort the parameter items with
Python tuple order, concatenate the values only, append the client secret,
and take the upper-cased MD5 hex digest. -/
def zxxk_sign (client_secret : String) (params : List (String × String)) : String :=
  let sorted_params := params.mergeSort tupLe
  let sign_str := (sorted_params.foldl (fun acc kv => acc ++ kv.2) "") ++ client_secret
  md5HexUpper sign_str

/-- `AuthJdSource._sign` (`source/jd.py`): drop any `sign` entry, sort the
items by key, concatenate `key ++ value` pairs, prepend and append the
client secret, and take the upper-cased MD5 hex digest. -/
def jd_sign (client_secret : String) (params : List (String × String)) : String :=
  let params_to_sign := params.filter (fun p => p.1 ≠ "sign")
  let sorted_params := params_to_sign.mergeSort keyLe
  let sign_str :=
    client_secret ++ (sorted_params.foldl (fun acc kv => acc ++ kv.1 ++ kv.2) "") ++ client_secret
  md5HexUpper sign_str

/-- PKCS#7 padding for a 128-bit block size: append `p` copies of `p`, where
`p = 16 - len % 16` (so `1 ≤ p ≤ 16`). -/
def pkcs7Pad (data : List Nat) : List Nat :=
  let p := 16 - data.length % 16
  data ++ List.replicate p p

/-- The standard base64 alphabet. -/
def base64Chars : List Char :=
  "ABCDEFGHIJKLMNOPQRSTUVWXYZabcdefghijklmnopqrstuvwxyz0123456789+/".toList

/-- Standard base64 encoding of a byte list with `=` padding. -/
def base64Encode : List Nat → String
  | [] => ""
  | [b1] => String.mk [base64Chars.getD (b1 / 4) 'A',
      base64Chars.getD ((b1 % 4) * 16) 'A', '=', '=']
  | [b1, b2] => String.mk [base64Chars.getD (b1 / 4) 'A',
      base64Chars.getD ((b1 % 4) * 16 + b2 / 16) 'A',
      base64Chars.getD ((b2 % 16) * 4) 'A', '=']
  | b1 :: b2 :: b3 :: rest =>
    String.mk [base64Chars.getD (b1 / 4) 'A',
      base64Chars.getD ((b1 % 4) * 16 + b2 / 16) 'A',
      base64Chars.getD ((b2 % 16) * 4 + b3 / 64) 'A',
      base64Chars.getD (b3 % 64) 'A'] ++ base64Encode rest

/-- `AuthZxxkSource.aes_encrypt` (`source/zxxk.py`): empty text or empty key
short-circuits to `""`; a key whose UTF-8 byte length is not 16/24/32 raises
`ValueError`; otherwise the UTF-8 plaintext is PKCS#7-padded, encrypted
block-wise in ECB mode and base64-encoded.  `aes_block key block` stands for
the AES block encryption of `cryptography`'s `algorithms.AES`. -/
def aes_encrypt (aes_block : List Nat → List Nat → List Nat)
    (text key : String) : Except PyExn String :=
  if text.isEmpty || key.isEmpty then
    Except.ok ""
  else
    let key_bytes := utf8Bytes key
    if ¬(key_bytes.length = 16 ∨ key_bytes.length = 24 ∨ key_bytes.length = 32) then
      Except.error (PyExn.valueError "Key must be 16, 24, or 32 bytes long")
    else
      let padded_data := pkcs7Pad (utf8Bytes text)
      let encrypted := ((chunksOf 16 padded_data).map (aes_block key_bytes)).flatten
      Except.ok (base64Encode encrypted)

/-- The state check in `login` passes when it does not fire (CSRF checking
disabled, or the callback's state falsy) or when the cached value is truthy. -/
def stateCheckPasses (config : AuthConfig) (cache_get : String → Option String)
    (cb : AuthCallback) : Bool :=
  !(!config.ignore_check_state && pyTruthy cb.state) ||
    pyTruthy (cache_get (cb.state.getD ""))

/-- A sample credential (expiring bearer token). -/
def demoToken : AuthToken :=
  { access_token := "AT1", token_type := "Bearer", expires_in := some 7200 }

/-- A sample credential with no expiry information. -/
def noExpiryToken : AuthToken :=
  { access_token := "AT2", token_type := "Bearer", expires_in := none }

/-- A sample identity. -/
def demoUser : AuthUser := { uuid := "42", username := some "alice" }

/-- A stub adapter token-exchange step that always succeeds. -/
def stubGetAccessToken : AuthCallback → AuthResponse AuthToken :=
  fun _ => AuthResponse.success (some demoToken) none

/-- A stub adapter token-exchange step that always fails with code 400. -/
def stubFailingAccessToken : AuthCallback → AuthResponse AuthToken :=
  fun _ => AuthResponse.failure "invalid code" 400

/-- A stub adapter user-info step that always succeeds. -/
def stubGetUserInfo : Option AuthToken → List (String × String) → AuthResponse AuthUser :=
  fun _ _ => AuthResponse.success (some demoUser) none

/-- A sample configuration (CSRF checking enabled, the default). -/
def demoConfig : AuthConfig := { client_id := "cid", client_secret := "sec" }

/-- A state cache with no entries (every entry absent or expired). -/
def emptyCache : String → Option String := fun _ => none

/-- A state cache holding exactly the outstanding state `"S1"`. -/
def cacheS1 : String → Option String := fun s => if s = "S1" then some "S1" else none

/-- A state cache holding exactly the twitter request-token secret for the
request token `"OT"`. -/
def twitterCache : String → Option String :=
  fun s => if s = "twitter_token_secret_OT" then some "SECRET" else none

/-- A twitter callback carrying the request token `"OT"`. -/
def twitterCallback : AuthCallback := { oauth_token := some "OT" }

/-- A sample successful GitHub user-info payload. -/
def githubDemoResponse : GithubUserHttp := { id := some 42, login := some "alice" }

/-- A sample credential carrying an alipay open id. -/
def alipayToken : AuthToken :=
  { access_token := "AT3", token_type := "Bearer", expires_in := some 0,
    open_id := some "OID" }

/-- A sample successful alipay user-info payload. -/
def alipayDemoUser : AlipayUserHttp :=
  { alipay_user_info_share_response := some { code := some "10000", nick_name := some "bob" } }

/-- The strict key order underlying both parameter sorts. -/
def keyStrict (p q : String × String) : Prop := pyStrLt p.1 q.1 = true

lemma strLtb_irrefl (l : List Char) : strLtb l l = false := by
  induction l with
  | nil => rfl
  | cons a as ih => simp [strLtb, ih]

lemma strLtb_trans (a : List Char) : ∀ b c, strLtb a b = true → strLtb b c = true →
    strLtb a c = true := by
  induction a with
  | nil =>
    intro b c hab hbc
    cases b with
    | nil => simp [strLtb] at hab
    | cons hb bs =>
      cases c with
      | nil => simp [strLtb] at hbc
      | cons hc cs => simp [strLtb]
  | cons ha as ih =>
    intro b c hab hbc
    cases b with
    | nil => simp [strLtb] at hab
    | cons hb bs =>
      cases c with
      | nil => simp [strLtb] at hbc
      | cons hc cs =>
        simp only [strLtb] at hab hbc ⊢
        by_cases h1 : ha.toNat < hb.toNat
        · by_cases h2 : hb.toNat < hc.toNat
          · simp [Nat.lt_trans h1 h2]
          · by_cases h4 : hc.toNat < hb.toNat
            · simp [h2, h4] at hbc
            · have h3 : ha.toNat < hc.toNat := by omega
              simp [h3]
        · by_cases h5 : hb.toNat < ha.toNat
          · simp [h1, h5] at hab
          · simp only [h1, h5, if_false] at hab
            by_cases h2 : hb.toNat < hc.toNat
            · have h3 : ha.toNat < hc.toNat := by omega
              simp [h3]
            · by_cases h4 : hc.toNat < hb.toNat
              · simp [h2, h4] at hbc
              · simp only [h2, h4, if_false] at hbc
                have h3 : ¬ ha.toNat < hc.toNat := by omega
                have h6 : ¬ hc.toNat < ha.toNat := by omega
                simp only [h3, h6, if_false]
                exact ih bs cs hab hbc

lemma strLtb_asymm (a b : List Char) (h : strLtb a b = true) : strLtb b a = false := by
  by_contra hba
  rw [Bool.not_eq_false] at hba
  have htt := strLtb_trans a b a h hba
  rw [strLtb_irrefl] at htt
  exact Bool.false_ne_true htt

lemma strLtb_eq_of_false (a : List Char) : ∀ b, strLtb a b = false → strLtb b a = false →
    a = b := by
  induction a with
  | nil =>
    intro b hab _
    cases b with
    | nil => rfl
    | cons x xs => simp [strLtb] at hab
  | cons ha as ih =>
    intro b hab hba
    cases b with
    | nil => simp [strLtb] at hba
    | cons hb bs =>
      simp only [strLtb] at hab hba
      by_cases h1 : ha.toNat < hb.toNat
      · simp [h1] at hab
      · by_cases h2 : hb.toNat < ha.toNat
        · simp [h2] at hba
        · have heq : ha.toNat = hb.toNat := by omega
          have hchar : ha = hb := Char.ext (UInt32.ext heq)
          simp only [h1, h2, if_false] at hab hba
          rw [hchar, ih bs hab hba]

lemma pyStrLt_irrefl (a : String) : pyStrLt a a = false := strLtb_irrefl _

lemma pyStrLt_trans {a b c : String} (h1 : pyStrLt a b = true) (h2 : pyStrLt b c = true) :
    pyStrLt a c = true := strLtb_trans _ _ _ h1 h2

lemma pyStrLt_asymm {a b : String} (h : pyStrLt a b = true) : pyStrLt b a = false :=
  strLtb_asymm _ _ h

lemma pyStr_eq_of_not_lt {a b : String} (hab : pyStrLt a b = false)
    (hba : pyStrLt b a = false) : a = b :=
  String.toList_inj.mp (strLtb_eq_of_false _ _ hab hba)

lemma pyStrLe_iff {a b : String} : pyStrLe a b = true ↔ pyStrLt b a = false := by
  simp [pyStrLe, pyStrLt]

lemma pyStrLe_trans {a b c : String} (h1 : pyStrLe a b = true) (h2 : pyStrLe b c = true) :
    pyStrLe a c = true := by
  rw [pyStrLe_iff] at h1 h2 ⊢
  by_contra h
  rw [Bool.not_eq_false] at h
  by_cases hab : pyStrLt a b = true
  · have hcb := pyStrLt_trans h hab
    rw [hcb] at h2
    exact Bool.noConfusion h2
  · have hab' : pyStrLt a b = false := by simpa using hab
    have heq := pyStr_eq_of_not_lt hab' h1
    rw [heq] at h
    rw [h] at h2
    exact Bool.noConfusion h2

lemma pyStrLe_total (a b : String) : pyStrLe a b = true ∨ pyStrLe b a = true := by
  by_cases h : pyStrLt b a = true
  · right
    rw [pyStrLe_iff]
    exact pyStrLt_asymm h
  · left
    rw [pyStrLe_iff]
    simpa using h

lemma tupLe_trans (p q r : String × String) (hpq : tupLe p q = true)
    (hqr : tupLe q r = true) : tupLe p r = true := by
  simp only [tupLe, Bool.or_eq_true, Bool.and_eq_true, decide_eq_true_eq] at hpq hqr ⊢
  rcases hpq with h1 | ⟨he1, hv1⟩ <;> rcases hqr with h2 | ⟨he2, hv2⟩
  · exact Or.inl (pyStrLt_trans h1 h2)
  · exact Or.inl (he2 ▸ h1)
  · exact Or.inl (by rw [he1]; exact h2)
  · exact Or.inr ⟨he1.trans he2, pyStrLe_trans hv1 hv2⟩

lemma tupLe_total (p q : String × String) : (tupLe p q || tupLe q p) = true := by
  simp only [tupLe, Bool.or_eq_true, Bool.and_eq_true, decide_eq_true_eq]
  by_cases h1 : pyStrLt p.1 q.1 = true
  · exact Or.inl (Or.inl h1)
  · by_cases h2 : pyStrLt q.1 p.1 = true
    · exact Or.inr (Or.inl h2)
    · have heq : p.1 = q.1 := pyStr_eq_of_not_lt (by simpa using h1) (by simpa using h2)
      rcases pyStrLe_total p.2 q.2 with hv | hv
      · exact Or.inl (Or.inr ⟨heq, hv⟩)
      · exact Or.inr (Or.inr ⟨heq.symm, hv⟩)

lemma tupLe_strict (p q : String × String) (h : tupLe p q = true) (hne : p.1 ≠ q.1) :
    pyStrLt p.1 q.1 = true := by
  simp only [tupLe, Bool.or_eq_true, Bool.and_eq_true, decide_eq_true_eq] at h
  rcases h with h | ⟨he, _⟩
  · exact h
  · exact absurd he hne

lemma keyLe_trans (p q r : String × String) (hpq : keyLe p q = true)
    (hqr : keyLe q r = true) : keyLe p r = true := pyStrLe_trans hpq hqr

lemma keyLe_total (p q : String × String) : (keyLe p q || keyLe q p) = true := by
  rcases pyStrLe_total p.1 q.1 with h | h <;> simp [keyLe, h]

lemma keyLe_strict (p q : String × String) (h : keyLe p q = true) (hne : p.1 ≠ q.1) :
    pyStrLt p.1 q.1 = true := by
  rw [keyLe, pyStrLe_iff] at h
  by_cases h2 : pyStrLt p.1 q.1 = true
  · exact h2
  · exact absurd (pyStr_eq_of_not_lt (by simpa using h2) h) hne

lemma sorted_keyStrict_of_pairwise (le : (String × String) → (String × String) → Bool)
    (hstrict : ∀ p q, le p q = true → p.1 ≠ q.1 → pyStrLt p.1 q.1 = true)
    (l : List (String × String)) (hs : List.Pairwise (fun a b => le a b = true) l)
    (hn : (l.map Prod.fst).Nodup) : List.Sorted keyStrict l := by
  rw [List.Nodup, List.pairwise_map] at hn
  exact (hs.and hn).imp (fun hab => hstrict _ _ hab.1 hab.2)

lemma mergeSort_eq_of_perm_nodupKeys (le : (String × String) → (String × String) → Bool)
    (htrans : ∀ a b c, le a b = true → le b c = true → le a c = true)
    (htotal : ∀ a b, (le a b || le b a) = true)
    (hstrict : ∀ p q, le p q = true → p.1 ≠ q.1 → pyStrLt p.1 q.1 = true)
    (l1 l2 : List (String × String)) (hperm : l1.Perm l2)
    (hnodup : (l1.map Prod.fst).Nodup) :
    l1.mergeSort le = l2.mergeSort le := by
  haveI : IsAntisymm (String × String) keyStrict := by
    refine ⟨fun p q h1 h2 => ?_⟩
    rw [keyStrict] at h1 h2
    rw [pyStrLt_asymm h1] at h2
    exact absurd h2 Bool.false_ne_true
  have hnodup2 : (l2.map Prod.fst).Nodup := ((hperm.map Prod.fst).nodup_iff).mp hnodup
  have hn1 : ((l1.mergeSort le).map Prod.fst).Nodup :=
    (((l1.mergeSort_perm le).map Prod.fst).nodup_iff).mpr hnodup
  have hn2 : ((l2.mergeSort le).map Prod.fst).Nodup :=
    (((l2.mergeSort_perm le).map Prod.fst).nodup_iff).mpr hnodup2
  have s1 : List.Sorted keyStrict (l1.mergeSort le) :=
    sorted_keyStrict_of_pairwise le hstrict _ (List.sorted_mergeSort htrans htotal l1) hn1
  have s2 : List.Sorted keyStrict (l2.mergeSort le) :=
    sorted_keyStrict_of_pairwise le hstrict _ (List.sorted_mergeSort htrans htotal l2) hn2
  have hp12 : (l1.mergeSort le).Perm (l2.mergeSort le) :=
    ((l1.mergeSort_perm le).trans hperm).trans (l2.mergeSort_perm le).symm
  exact List.eq_of_perm_of_sorted hp12 s1 s2

lemma foldl_append_strings (ss : List String) : ∀ acc : String,
    ss.foldl (fun a s => a ++ s) acc = acc ++ String.join ss := by
  induction ss with
  | nil => intro acc; simp [String.join]
  | cons s ss ih =>
    intro acc
    show ss.foldl _ (acc ++ s) = acc ++ String.join (s :: ss)
    rw [ih]
    have hjoin : String.join (s :: ss) = s ++ String.join ss := by
      show ss.foldl _ ("" ++ s) = _
      rw [ih]
      simp
    rw [hjoin, String.append_assoc]

lemma toDigitsCore_len_ge (b : Nat) : ∀ (f n : Nat) (l : List Char),
    l.length ≤ (Nat.toDigitsCore b f n l).length := by
  intro f
  induction f with
  | zero => intro n l; simp [Nat.toDigitsCore]
  | succ f ih =>
    intro n l
    simp only [Nat.toDigitsCore]
    split
    · simp
    · calc l.length ≤ (Nat.digitChar (n % b) :: l).length := by simp
        _ ≤ _ := ih (n / b) _

lemma toDigits_ne_nil (b n : Nat) : Nat.toDigits b n ≠ [] := by
  intro h
  have hlen := congrArg List.length h
  rw [Nat.toDigits] at hlen
  simp only [Nat.toDigitsCore] at hlen
  revert hlen
  split
  · simp
  · intro hlen
    have := toDigitsCore_len_ge b n (n / b) [Nat.digitChar (n % b)]
    simp only [hlen] at this
    simp at this

lemma nat_repr_ne_empty (n : Nat) : Nat.repr n ≠ "" := by
  intro h
  have hdata := congrArg String.data h
  rw [Nat.repr] at hdata
  exact toDigits_ne_nil 10 n hdata

lemma pyStrInt_ne_empty (x : Option Int) : pyStrInt x ≠ "" := by
  cases x with
  | none => decide
  | some i =>
    show toString i ≠ ""
    cases i with
    | ofNat m =>
      show Int.repr (Int.ofNat m) ≠ ""
      simp only [Int.repr]
      exact nat_repr_ne_empty m
    | negSucc n =>
      show Int.repr (Int.negSucc n) ≠ ""
      simp only [Int.repr]
      intro h
      have hlen := congrArg String.length h
      rw [String.length_append] at hlen
      simp only [String.length] at hlen
      simp at hlen

/-- C7: gender normalization is a total function into
{unknown, male, female}: `get_gender` maps `'1'/'m'/'male'/'男'`
(case-insensitively, via lower-casing after string conversion) to male,
`'2'/'f'/'female'/'女'` to female, and every other input — including `None`
and unrecognized values — to unknown.  Totality of the Lean function (it
returns an `AuthGender`, not an `Except`) reflects that the source never
raises. -/
theorem get_gender_total_normalization (g : Option String) (s : String) :
    (AuthGender.get_gender g = AuthGender.UNKNOWN ∨
      AuthGender.get_gender g = AuthGender.MALE ∨
      AuthGender.get_gender g = AuthGender.FEMALE) ∧
    AuthGender.get_gender none = AuthGender.UNKNOWN ∧
    (AuthGender.get_gender (some s) = AuthGender.MALE ↔
      (pyLower s = "1" ∨ pyLower s = "m" ∨ pyLower s = "male" ∨ pyLower s = "男")) ∧
    (AuthGender.get_gender (some s) = AuthGender.FEMALE ↔
      (pyLower s = "2" ∨ pyLower s = "f" ∨ pyLower s = "female" ∨ pyLower s = "女")) ∧
    (¬(pyLower s = "1" ∨ pyLower s = "m" ∨ pyLower s = "male" ∨ pyLower s = "男") →
      ¬(pyLower s = "2" ∨ pyLower s = "f" ∨ pyLower s = "female" ∨ pyLower s = "女") →
      AuthGender.get_gender (some s) = AuthGender.UNKNOWN) := by
  refine ⟨?_, rfl, ?_, ?_, ?_⟩
  · cases g with
    | none => exact Or.inl rfl
    | some s' =>
      simp only [AuthGender.get_gender]
      split_ifs <;> simp
  · simp only [AuthGender.get_gender]
    split_ifs with h1 h2
    · exact iff_of_true rfl h1
    · exact iff_of_false (by decide) h1
    · exact iff_of_false (by decide) h1
  · simp only [AuthGender.get_gender]
    split_ifs with h1 h2
    · refine iff_of_false (by decide) (fun hc2 => ?_)
      rcases h1 with h | h | h | h <;> rcases hc2 with g' | g' | g' | g' <;>
        rw [h] at g' <;> exact absurd g' (by decide)
    · exact iff_of_true rfl h2
    · exact iff_of_false (by decide) h2
  · intro hn1 hn2
    simp only [AuthGender.get_gender]
    rw [if_neg hn1, if_neg hn2]

/-- C7 witness: evaluating the normalization at concrete inputs through the
theorem. -/
theorem get_gender_total_normalization_witness :
    AuthGender.get_gender (some "M") = AuthGender.MALE ∧
    AuthGender.get_gender (some "女") = AuthGender.FEMALE ∧
    AuthGender.get_gender (some "other") = AuthGender.UNKNOWN :=
  ⟨(get_gender_total_normalization (some "M") "M").2.2.1.mpr (by decide),
   (get_gender_total_normalization (some "女") "女").2.2.2.1.mpr (by decide),
   (get_gender_total_normalization (some "other") "other").2.2.2.2 (by decide) (by decide)⟩

/-- C10: for every `AuthToken` whose `expires_in` is `None` or not greater
than zero, `expired` returns `False`; for every `AuthToken` whose
`expires_in` is greater than zero, evaluating `expired` raises a type error,
because the source compares a `datetime` object against a numeric
timestamp-plus-offset. -/
theorem auth_token_expired_spec (t : AuthToken) :
    (t.expires_in = none → t.expired = Except.ok false) ∧
    (∀ e : Int, t.expires_in = some e → e ≤ 0 → t.expired = Except.ok false) ∧
    (∀ e : Int, t.expires_in = some e → 0 < e →
      t.expired = Except.error (PyExn.typeError
        "not supported between instances of datetime.datetime and float")) := by
  refine ⟨fun h => ?_, fun e he hle => ?_, fun e he hpos => ?_⟩
  · simp [AuthToken.expired, h]
  · simp [AuthToken.expired, he, hle]
  · have hn : ¬ e ≤ 0 := by omega
    simp [AuthToken.expired, he, hn]

/-- C10 witness: a token with `expires_in = 7200` raises, a token with
`expires_in = None` reports not expired. -/
theorem auth_token_expired_spec_witness :
    AuthToken.expired demoToken = Except.error (PyExn.typeError
      "not supported between instances of datetime.datetime and float") ∧
    AuthToken.expired noExpiryToken = Except.ok false :=
  ⟨(auth_token_expired_spec demoToken).2.2 7200 rfl (by decide),
   (auth_token_expired_spec noExpiryToken).1 rfl⟩

/-- C3 counterexample: the alipay token-exchange error path returns a
response whose status kind is success (the dataclass default, left untouched
by the direct `AuthTokenResponse(code=..., message=...)` construction) yet
carries no payload — refuting "payload present iff status kind is
success". -/
theorem alipay_error_path_success_status_no_payload :
    (alipay_get_access_token
        { error_response := some { code := some 40002, msg := some "invalid code" } }).status =
      ResponseStatus.SUCCESS ∧
    (alipay_get_access_token
        { error_response := some { code := some 40002, msg := some "invalid code" } }).data =
      none ∧
    ¬(((alipay_get_access_token
          { error_response := some { code := some 40002, msg := some "invalid code" } }).data.isSome =
        true) ↔
      (alipay_get_access_token
          { error_response := some { code := some 40002, msg := some "invalid code" } }).status =
        ResponseStatus.SUCCESS) := by
  refine ⟨rfl, rfl, fun h => ?_⟩
  exact absurd (h.mpr rfl) (by decide)

/-- C3 (amended): the five non-success factory constructors
(`failure`/`error`/`unauthorized`/`not_implemented`/`timeout`) carry no
payload and their designated non-success status, and the `success` factory
carries `SUCCESS` status with exactly the payload passed (itself optional);
but a success status does not imply a payload, since dataclass-default
constructions such as the alipay error path keep `SUCCESS` status with
`data = None`. -/
theorem auth_response_payload_status_discipline {T : Type} (data : Option T)
    (message : String) (message2 : Option String) (code : Int) :
    ((AuthResponse.failure message code : AuthResponse T).data = none ∧
      (AuthResponse.failure message code : AuthResponse T).status = ResponseStatus.FAILURE) ∧
    ((AuthResponse.error message code : AuthResponse T).data = none ∧
      (AuthResponse.error message code : AuthResponse T).status = ResponseStatus.ERROR) ∧
    ((AuthResponse.unauthorized message : AuthResponse T).data = none ∧
      (AuthResponse.unauthorized message : AuthResponse T).status =
        ResponseStatus.UNAUTHORIZED) ∧
    ((AuthResponse.not_implemented message : AuthResponse T).data = none ∧
      (AuthResponse.not_implemented message : AuthResponse T).status =
        ResponseStatus.NOT_IMPLEMENTED) ∧
    ((AuthResponse.timeout message : AuthResponse T).data = none ∧
      (AuthResponse.timeout message : AuthResponse T).status = ResponseStatus.TIMEOUT) ∧
    ((AuthResponse.success data message2).status = ResponseStatus.SUCCESS ∧
      (AuthResponse.success data message2).data = data) :=
  ⟨⟨rfl, rfl⟩, ⟨rfl, rfl⟩, ⟨rfl, rfl⟩, ⟨rfl, rfl⟩, ⟨rfl, rfl⟩, ⟨rfl, rfl⟩⟩

/-- C4 (code-bug evidence): the twitter adapter's token-exchange step, run
at a callback whose request-token secret is cached and a well-formed
provider reply, raises a `TypeError` out of the adapter (the `AuthToken`
dataclass has no `token_secret`/`user_id`/`screen_name` fields and the
method has no try/except); its user-info step likewise raises
`AttributeError` on every call — so exceptions do escape these adapter
boundaries instead of being converted into error-kind responses. -/
theorem twitter_token_exchange_raises_typeerror :
    twitter_get_access_token twitterCache twitterCallback
        [("oauth_token", "AT"), ("oauth_token_secret", "S")] =
      Except.error (PyExn.typeError
        "AuthToken.__init__() got an unexpected keyword argument 'token_secret'") ∧
    twitter_get_user_info demoToken =
      Except.error (PyExn.attributeError
        "'AuthToken' object has no attribute 'token_secret'") := ⟨rfl, rfl⟩

lemma pyStr_some (s : String) : pyStr (some s) = s := rfl

lemma pyTruthy_some_iff (s : String) : pyTruthy (some s) = true ↔ s ≠ "" := by
  show (!s.isEmpty) = true ↔ s ≠ ""
  rw [Bool.not_eq_true']
  rw [← Bool.not_eq_true]
  exact not_congr (String.isEmpty_iff s)

lemma find?_eq_some_of_unique {α : Type} (p : α → Bool) (l : List α) (x : α)
    (hex : x ∈ l) (hpx : p x = true) (huniq : ∀ y ∈ l, p y = true → y = x) :
    l.find? p = some x := by
  induction l with
  | nil => cases hex
  | cons a as ih =>
    by_cases hpa : p a = true
    · rw [List.find?_cons_of_pos as hpa]
      rw [huniq a (List.mem_cons_self a as) hpa]
    · rw [List.find?_cons_of_neg as hpa]
      rcases List.mem_cons.mp hex with rfl | hex'
      · exact absurd hpx hpa
      · exact ih hex' (fun y hy hp => huniq y (List.mem_cons_of_mem a hy) hp)

lemma build_raises_on_hidden_key (data : List (String × Option String))
    (h : "_known_fields" ∈ data.map Prod.fst) :
    AuthCallback.build data = Except.error (PyExn.typeError
      "AuthCallback.__init__() got an unexpected keyword argument '_known_fields'") := by
  have hmem : "_known_fields" ∈ (data.map Prod.fst).filter
      (fun k => AuthCallback.knownFields.contains k) :=
    List.mem_filter.mpr ⟨h, by decide⟩
  have hfind : ((data.map Prod.fst).filter
        (fun k => AuthCallback.knownFields.contains k)).find?
      (fun k => !AuthCallback.initFields.contains k) = some "_known_fields" := by
    apply find?_eq_some_of_unique _ _ _ hmem (by decide)
    intro y hy hpy
    have hyk : AuthCallback.knownFields.contains y = true := (List.mem_filter.mp hy).2
    have hymem : y ∈ AuthCallback.knownFields := by simpa using hyk
    simp only [AuthCallback.knownFields, List.mem_cons, List.not_mem_nil, or_false] at hymem
    rcases hymem with rfl | rfl | rfl | rfl | rfl | rfl | rfl | rfl | rfl | rfl | rfl <;>
      first
        | rfl
        | exact absurd hpy (by decide)
  simp only [AuthCallback.build, hfind]
  rfl

lemma loginTokenThenUser_spec {K : Type}
    (gat : AuthCallback → AuthResponse AuthToken)
    (gui : Option AuthToken → K → AuthResponse AuthUser)
    (cb : AuthCallback) (kwargs : K) :
    (loginTokenThenUser gat gui cb kwargs).2.count FlowEvent.tokenExchange = 1 ∧
    ((gat cb).code ≠ PyVal.int 200 →
      (loginTokenThenUser gat gui cb kwargs).1 =
        { code := (gat cb).code, data := none, status := (gat cb).status,
          message := (gat cb).message } ∧
      (loginTokenThenUser gat gui cb kwargs).2.count FlowEvent.userInfo = 0) ∧
    ((gat cb).code = PyVal.int 200 →
      (loginTokenThenUser gat gui cb kwargs).1 = gui (gat cb).data kwargs ∧
      (loginTokenThenUser gat gui cb kwargs).2.count FlowEvent.userInfo = 1) := by
  by_cases h : (gat cb).code = PyVal.int 200
  · have hred : loginTokenThenUser gat gui cb kwargs =
        (gui (gat cb).data kwargs, [FlowEvent.tokenExchange, FlowEvent.userInfo]) := by
      simp [loginTokenThenUser, h]
    rw [hred]
    exact ⟨rfl, fun hne => absurd h hne, fun _ => ⟨rfl, rfl⟩⟩
  · have hred : loginTokenThenUser gat gui cb kwargs =
        ({ code := (gat cb).code, data := none, status := (gat cb).status,
           message := (gat cb).message }, [FlowEvent.tokenExchange]) := by
      simp [loginTokenThenUser, h]
    rw [hred]
    exact ⟨rfl, fun _ => ⟨rfl, rfl⟩, fun heq => absurd heq h⟩

/-- C2: for every callback map that parses successfully (callback parsing
itself can raise; see C1), carries a code and passes the state check,
`login` raises nothing and invokes the adapter's token-exchange step exactly
once; if that step's response code is not 200, `login` returns a response
with the same code, status and message (and no payload) and never invokes
the user-info step; otherwise it invokes the user-info step exactly once,
forwarding the extra keyword parameters, and returns its result. -/
theorem login_token_exchange_user_info_flow {K : Type} (config : AuthConfig)
    (cache_get : String → Option String)
    (get_access_token : AuthCallback → AuthResponse AuthToken)
    (get_user_info : Option AuthToken → K → AuthResponse AuthUser)
    (callback : List (String × Option String)) (kwargs : K) (cb : AuthCallback)
    (hbuild : AuthCallback.build callback = Except.ok cb)
    (hstate : stateCheckPasses config cache_get cb = true)
    (hcode : pyTruthy cb.code = true) :
    (∃ r, login config cache_get get_access_token get_user_info callback kwargs =
      Except.ok r) ∧
    (∀ r, login config cache_get get_access_token get_user_info callback kwargs =
        Except.ok r →
      r.2.count FlowEvent.tokenExchange = 1 ∧
      ((get_access_token cb).code ≠ PyVal.int 200 →
        r.1 = { code := (get_access_token cb).code, data := none,
                status := (get_access_token cb).status,
                message := (get_access_token cb).message } ∧
        r.2.count FlowEvent.userInfo = 0) ∧
      ((get_access_token cb).code = PyVal.int 200 →
        r.1 = get_user_info (get_access_token cb).data kwargs ∧
        r.2.count FlowEvent.userInfo = 1)) := by
  have hmain := loginTokenThenUser_spec get_access_token get_user_info cb kwargs
  have hred : login config cache_get get_access_token get_user_info callback kwargs =
      Except.ok (loginTokenThenUser get_access_token get_user_info cb kwargs) := by
    by_cases hb : (!config.ignore_check_state && pyTruthy cb.state) = true
    · have hc : pyTruthy (cache_get (cb.state.getD "")) = true := by
        rw [stateCheckPasses] at hstate
        simpa [hb] using hstate
      simp [login, hbuild, hb, hc]
    · have hb' : (!config.ignore_check_state && pyTruthy cb.state) = false := by
        simpa using hb
      simp [login, hbuild, hb']
  refine ⟨⟨_, hred⟩, fun r hr => ?_⟩
  rw [hred] at hr
  rw [← Except.ok.inj hr]
  exact hmain

/-- C2 witness: a callback with a cached state parses, raises nothing, and
reaches token exchange exactly once under the stub adapter. -/
theorem login_token_exchange_user_info_flow_witness :
    AuthCallback.build [("code", some "c1"), ("state", some "S1")] =
      Except.ok { code := some "c1", state := some "S1" } ∧
    stateCheckPasses demoConfig cacheS1 { code := some "c1", state := some "S1" } = true ∧
    ∃ r, login demoConfig cacheS1 stubGetAccessToken stubGetUserInfo
        [("code", some "c1"), ("state", some "S1")]
        ([("k", "v")] : List (String × String)) = Except.ok r ∧
      r.2.count FlowEvent.tokenExchange = 1 :=
  ⟨rfl, by decide, by
    obtain ⟨⟨r, hr⟩, hall⟩ := login_token_exchange_user_info_flow demoConfig cacheS1
      stubGetAccessToken stubGetUserInfo [("code", some "c1"), ("state", some "S1")]
      ([("k", "v")] : List (String × String)) { code := some "c1", state := some "S1" }
      rfl (by decide) (by decide)
    exact ⟨r, hr, (hall r hr).1⟩⟩

/-- C1 counterexample: a callback map whose state value is the empty string
`""` — a value absent from the (empty) state cache — with CSRF checking
enabled still reaches token exchange (the returned event trace contains the
token-exchange step) and does not produce a failure-status response, because
`login` only performs the cache lookup when the callback state is truthy. -/
theorem login_blank_state_bypasses_check :
    demoConfig.ignore_check_state = false ∧
    dictGet [("code", some "c1"), ("state", some "")] "state" = some "" ∧
    emptyCache "" = none ∧
    login demoConfig emptyCache stubGetAccessToken stubGetUserInfo
        [("code", some "c1"), ("state", some "")] ([] : List (String × String)) =
      Except.ok (AuthResponse.success (some demoUser) none,
        [FlowEvent.tokenExchange, FlowEvent.userInfo]) ∧
    (AuthResponse.success (some demoUser) none : AuthResponse AuthUser).status ≠
      ResponseStatus.FAILURE :=
  ⟨rfl, rfl, rfl, rfl, by decide⟩

/-- C1 (amended): for every callback map that parses successfully with a
non-empty state value absent from (or expired in) the state cache, and with
CSRF checking not disabled in configuration, `login` returns the
failure-status response and performs no adapter step at all (empty event
trace — token exchange is never invoked, so no credential or identity is
produced and no further network call is made); a callback map carrying the
key `"_known_fields"` instead makes `login` raise the callback-parsing
`TypeError`, likewise before any adapter step. -/
theorem login_nonempty_state_missing_fails {K : Type} (config : AuthConfig)
    (cache_get : String → Option String)
    (get_access_token : AuthCallback → AuthResponse AuthToken)
    (get_user_info : Option AuthToken → K → AuthResponse AuthUser)
    (callback : List (String × Option String)) (kwargs : K) (cb : AuthCallback)
    (hbuild : AuthCallback.build callback = Except.ok cb)
    (hic : config.ignore_check_state = false)
    (hstate : pyTruthy cb.state = true)
    (hmiss : pyTruthy (cache_get (cb.state.getD "")) = false) :
    login config cache_get get_access_token get_user_info callback kwargs =
      Except.ok (AuthResponse.failure "state参数不匹配或已过期，请重新授权" 400, []) ∧
    (∀ r, login config cache_get get_access_token get_user_info callback kwargs =
        Except.ok r →
      r.1.status = ResponseStatus.FAILURE ∧ r.2.count FlowEvent.tokenExchange = 0) ∧
    (∀ data2 : List (String × Option String), "_known_fields" ∈ data2.map Prod.fst →
      login config cache_get get_access_token get_user_info data2 kwargs =
        Except.error (PyExn.typeError
          "AuthCallback.__init__() got an unexpected keyword argument '_known_fields'")) := by
  have hred : login config cache_get get_access_token get_user_info callback kwargs =
      Except.ok (AuthResponse.failure "state参数不匹配或已过期，请重新授权" 400, []) := by
    simp [login, hbuild, hic, hstate, hmiss]
  refine ⟨hred, fun r hr => ?_, fun data2 h2 => ?_⟩
  · rw [hred] at hr
    rw [← Except.ok.inj hr]
    exact ⟨rfl, rfl⟩
  · simp [login, build_raises_on_hidden_key data2 h2]

/-- C1 witness: a truthy state `"S2"` absent from a cache holding only
`"S1"` yields the failure-status response with an empty event trace. -/
theorem login_nonempty_state_missing_fails_witness :
    AuthCallback.build [("code", some "c1"), ("state", some "S2")] =
      Except.ok { code := some "c1", state := some "S2" } ∧
    login demoConfig cacheS1 stubGetAccessToken stubGetUserInfo
        [("code", some "c1"), ("state", some "S2")] ([] : List (String × String)) =
      Except.ok (AuthResponse.failure "state参数不匹配或已过期，请重新授权" 400, []) :=
  ⟨rfl,
   (login_nonempty_state_missing_fails demoConfig cacheS1 stubGetAccessToken stubGetUserInfo
      [("code", some "c1"), ("state", some "S2")] ([] : List (String × String))
      { code := some "c1", state := some "S2" } rfl (by decide) (by decide) (by decide)).1⟩

/-- C5 counterexample: one `authorize` call performs two state-cache writes
— one in `authorize` itself and one inside `get_authorize_params` — not
exactly one. -/
theorem authorize_performs_two_cache_writes :
    (authorize demoConfig "user" "https://example.com/authorize" none "U1" "U2").2 =
      [⟨"U1", "U1", some 180⟩, ⟨"U1", "U1", some 180⟩] ∧
    (authorize demoConfig "user" "https://example.com/authorize" none "U1" "U2").2.length ≠
      1 := by decide

/-- C5 (amended): every `authorize` call performs exactly two state-cache
writes, both storing the chosen state value (the supplied state when truthy,
otherwise the fresh draw) under its own key with the default TTL of 180
seconds; no other cache entry is created or modified. -/
theorem authorize_cache_write_trace (config : AuthConfig)
    (default_scope authorize_url : String) (state : Option String)
    (fresh_uuid fresh_uuid2 : String) (huuid : fresh_uuid ≠ "") :
    (authorize config default_scope authorize_url state fresh_uuid fresh_uuid2).2 =
      [⟨if pyTruthy state then pyStr state else fresh_uuid,
        if pyTruthy state then pyStr state else fresh_uuid, some 180⟩,
       ⟨if pyTruthy state then pyStr state else fresh_uuid,
        if pyTruthy state then pyStr state else fresh_uuid, some 180⟩] ∧
    ∀ w ∈ (authorize config default_scope authorize_url state fresh_uuid fresh_uuid2).2,
      w.key = (if pyTruthy state then pyStr state else fresh_uuid) ∧ w.value = w.key ∧
        w.timeout = some 180 := by
  have hst : pyTruthy (some (if pyTruthy state then pyStr state else fresh_uuid)) = true := by
    by_cases h : pyTruthy state = true
    · rw [if_pos h]
      cases state with
      | none => simp [pyTruthy] at h
      | some s => exact h
    · rw [if_neg h]
      exact (pyTruthy_some_iff fresh_uuid).mpr huuid
  have hred : (authorize config default_scope authorize_url state fresh_uuid fresh_uuid2).2 =
      [⟨if pyTruthy state then pyStr state else fresh_uuid,
        if pyTruthy state then pyStr state else fresh_uuid, some 180⟩,
       ⟨if pyTruthy state then pyStr state else fresh_uuid,
        if pyTruthy state then pyStr state else fresh_uuid, some 180⟩] := by
    simp only [authorize, get_authorize_params, hst, if_true, pyStr_some]
  refine ⟨hred, fun w hw => ?_⟩
  rw [hred] at hw
  simp only [List.mem_cons, List.not_mem_nil, or_false] at hw
  rcases hw with hw | hw <;> subst hw <;> exact ⟨rfl, rfl, rfl⟩

/-- C5 witness: with an explicit state the two writes both store that state
with TTL 180. -/
theorem authorize_cache_write_trace_witness :
    ("U1" : String) ≠ "" ∧
    (authorize demoConfig "user" "https://example.com/authorize" (some "MYSTATE") "U1"
        "U2").2 =
      [⟨"MYSTATE", "MYSTATE", some 180⟩, ⟨"MYSTATE", "MYSTATE", some 180⟩] :=
  ⟨by decide,
   ((authorize_cache_write_trace demoConfig "user" "https://example.com/authorize"
      (some "MYSTATE") "U1" "U2" (by decide)).1).trans (by decide)⟩

set_option maxRecDepth 200000 in
lemma md5Hex_rfc1321_empty : md5Hex "" = "d41d8cd98f00b204e9800998ecf8427e" := by decide

set_option maxRecDepth 200000 in
lemma md5Hex_rfc1321_abc : md5Hex "abc" = "900150983cd24fb0d6963f7d28e17f72" := by decide

/-- C6 counterexample: the GitHub adapter's user-info success path sets
`uuid = str(response.get('id'))` — the raw provider id, with no
provider-name qualification, so the same provider-assigned id does not yield
a provider-distinguished uuid. -/
theorem github_uuid_not_qualified :
    ((github_get_user_info "github" demoToken githubDemoResponse).data.map AuthUser.uuid) =
      some "42" ∧
    (github_get_user_info "github" demoToken githubDemoResponse).status =
      ResponseStatus.SUCCESS ∧
    List.isPrefixOf "github".toList "42".toList = false ∧
    ("42" : String) ≠ "github" ++ "_" ++ "42" := by decide

/-- C6 (amended): on a successful fetch the alipay adapter returns
`uuid = source.name ++ "_" ++ open_id` — provider-qualified and non-empty;
the GitHub adapter returns the raw `str()` of the provider id — non-empty
but not qualified by the provider name; the twitter adapter's user-info step
never succeeds at all (it raises `AttributeError` on its first statement),
so it produces no identity. -/
theorem user_info_uuid_shapes (source_name : String) (token : AuthToken)
    (gh : GithubUserHttp) (ali : AlipayUserHttp)
    (hgh : ¬(gh.message.isSome ∧ gh.message ≠ some "success"))
    (hali : (ali.alipay_user_info_share_response.getD {}).code = some "10000") :
    ((alipay_get_user_info source_name token ali).data.map AuthUser.uuid) =
      some (source_name ++ "_" ++ pyStr token.open_id) ∧
    (∀ u, (alipay_get_user_info source_name token ali).data = some u → u.uuid ≠ "") ∧
    ((github_get_user_info source_name token gh).data.map AuthUser.uuid) =
      some (pyStrInt gh.id) ∧
    (∀ u, (github_get_user_info source_name token gh).data = some u → u.uuid ≠ "") ∧
    (∀ r, twitter_get_user_info token ≠ Except.ok r) := by
  have h1 : ((alipay_get_user_info source_name token ali).data.map AuthUser.uuid) =
      some (source_name ++ "_" ++ pyStr token.open_id) := by
    simp [alipay_get_user_info, hali]
  have h3 : ((github_get_user_info source_name token gh).data.map AuthUser.uuid) =
      some (pyStrInt gh.id) := by
    simp [github_get_user_info, hgh, AuthResponse.success]
  refine ⟨h1, fun u hu => ?_, h3, fun u hu => ?_, fun r h => ?_⟩
  · have huuid := h1
    rw [hu] at huuid
    simp only [Option.map_some'] at huuid
    rw [Option.some.inj huuid]
    intro he
    have hl := congrArg String.length he
    rw [String.length_append, String.length_append] at hl
    have hone : ("_" : String).length = 1 := rfl
    have hzero : ("" : String).length = 0 := rfl
    rw [hone, hzero] at hl
    omega
  · have huuid := h3
    rw [hu] at huuid
    simp only [Option.map_some'] at huuid
    rw [Option.some.inj huuid]
    exact pyStrInt_ne_empty gh.id
  · simp [twitter_get_user_info] at h

/-- C6 witness: concrete alipay and GitHub fetches through the theorem. -/
theorem user_info_uuid_shapes_witness :
    (alipayDemoUser.alipay_user_info_share_response.getD {}).code = some "10000" ∧
    ((alipay_get_user_info "alipay" alipayToken alipayDemoUser).data.map AuthUser.uuid) =
      some "alipay_OID" ∧
    ((github_get_user_info "github" alipayToken githubDemoResponse).data.map AuthUser.uuid) =
      some "42" :=
  ⟨by decide,
   ((user_info_uuid_shapes "alipay" alipayToken githubDemoResponse alipayDemoUser
      (by decide) (by decide)).1).trans (by decide),
   ((user_info_uuid_shapes "github" alipayToken githubDemoResponse alipayDemoUser
      (by decide) (by decide)).2.2.1).trans (by decide)⟩

set_option maxRecDepth 200000 in
unseal List.merge List.mergeSort in
/-- C8 counterexample: the jd `_sign` concatenates `key ++ value` pairs and
both prepends and appends the secret, so its signature is not the
upper-cased MD5 of the values concatenated in sorted-key order with the
secret appended (which is exactly what the zxxk `_sign` computes). -/
theorem jd_sign_not_value_concat :
    jd_sign "s" [("k", "v")] ≠ md5HexUpper ("v" ++ "s") ∧
    zxxk_sign "s" [("k", "v")] = md5HexUpper ("v" ++ "s") := by decide

/-- C8 (amended): both MD5 concatenation signatures are deterministic in the
key-to-value mapping: permuting the parameter items of a map with unique
keys (as in a Python dict) never changes the signature string.  The zxxk
signature equals the upper-cased MD5 hex digest of the values concatenated
in sorted-key order with the client secret appended; the jd signature
instead hashes `secret ++ (key ++ value, sorted by key) ++ secret`. -/
theorem md5_sign_deterministic (secret : String) (l1 l2 : List (String × String))
    (hperm : l1.Perm l2) (hnodup : (l1.map Prod.fst).Nodup) :
    zxxk_sign secret l1 = zxxk_sign secret l2 ∧
    zxxk_sign secret l1 =
      md5HexUpper (String.join ((l1.mergeSort tupLe).map Prod.snd) ++ secret) ∧
    jd_sign secret l1 = jd_sign secret l2 := by
  have hz : l1.mergeSort tupLe = l2.mergeSort tupLe :=
    mergeSort_eq_of_perm_nodupKeys tupLe tupLe_trans tupLe_total tupLe_strict l1 l2 hperm
      hnodup
  have hfilter : (l1.filter (fun p => p.1 ≠ "sign")).Perm
      (l2.filter (fun p => p.1 ≠ "sign")) := hperm.filter _
  have hnodupf : ((l1.filter (fun p => p.1 ≠ "sign")).map Prod.fst).Nodup :=
    List.Nodup.sublist ((List.filter_sublist l1).map Prod.fst) hnodup
  have hj : (l1.filter (fun p => p.1 ≠ "sign")).mergeSort keyLe =
      (l2.filter (fun p => p.1 ≠ "sign")).mergeSort keyLe :=
    mergeSort_eq_of_perm_nodupKeys keyLe keyLe_trans keyLe_total keyLe_strict _ _ hfilter
      hnodupf
  refine ⟨?_, ?_, ?_⟩
  · simp only [zxxk_sign, hz]
  · simp only [zxxk_sign]
    congr 1
    congr 1
    have hfold := foldl_append_strings ((l1.mergeSort tupLe).map Prod.snd) ""
    rw [List.foldl_map] at hfold
    rw [hfold]
    simp
  · simp only [jd_sign, hj]

/-- C8 witness: swapping the insertion order of a two-entry map leaves the
zxxk signature unchanged. -/
theorem md5_sign_deterministic_witness :
    ([(("b" : String), ("2" : String)), ("a", "1")]).Perm [("a", "1"), ("b", "2")] ∧
    zxxk_sign "sec" [("b", "2"), ("a", "1")] = zxxk_sign "sec" [("a", "1"), ("b", "2")] :=
  ⟨List.Perm.swap ("a", "1") ("b", "2") [],
   (md5_sign_deterministic "sec" [("b", "2"), ("a", "1")] [("a", "1"), ("b", "2")]
      (List.Perm.swap ("a", "1") ("b", "2") []) (by decide)).1⟩

/-- C9 counterexample: an empty key — whose UTF-8 byte length 0 is not
16/24/32 — does not fail fast: the truthiness short-circuit returns the
empty string as an ordinary result; likewise an empty plaintext with a valid
16-byte key returns `""` rather than the ciphertext of the padded
plaintext. -/
theorem aes_encrypt_empty_key_returns_empty :
    aes_encrypt (fun _ b => b) "hello" "" = Except.ok "" ∧
    (utf8Bytes "").length = 0 ∧
    aes_encrypt (fun _ b => b) "" "0123456789abcdef" = Except.ok "" := ⟨rfl, rfl, rfl⟩

/-- C9 (amended): for non-empty plaintext and non-empty key, `aes_encrypt`
fails fast with `ValueError` whenever the key's UTF-8 byte length is not
16/24/32, and with a 16/24/32-byte key returns the base64 encoding of the
blockwise ECB encryption of the PKCS#7-padded plaintext; an empty plaintext
or empty key short-circuits to `""` without error and without encrypting. -/
theorem aes_encrypt_key_guard (aes_block : List Nat → List Nat → List Nat)
    (text key : String) (htext : text.isEmpty = false) (hkey : key.isEmpty = false) :
    (¬((utf8Bytes key).length = 16 ∨ (utf8Bytes key).length = 24 ∨
        (utf8Bytes key).length = 32) →
      aes_encrypt aes_block text key =
        Except.error (PyExn.valueError "Key must be 16, 24, or 32 bytes long")) ∧
    (((utf8Bytes key).length = 16 ∨ (utf8Bytes key).length = 24 ∨
        (utf8Bytes key).length = 32) →
      aes_encrypt aes_block text key =
        Except.ok (base64Encode
          (((chunksOf 16 (pkcs7Pad (utf8Bytes text))).map
            (aes_block (utf8Bytes key))).flatten))) ∧
    (∀ t k : String, (t.isEmpty || k.isEmpty) = true →
      aes_encrypt aes_block t k = Except.ok "") := by
  refine ⟨fun h => ?_, fun h => ?_, fun t k h => ?_⟩
  · simp [aes_encrypt, htext, hkey, h]
  · simp [aes_encrypt, htext, hkey, h]
  · simp [aes_encrypt, h]

/-- C9 witness: a 1-byte key with non-empty plaintext raises the
configuration error through the theorem. -/
theorem aes_encrypt_key_guard_witness :
    ("hi" : String).isEmpty = false ∧
    aes_encrypt (fun _ b => b) "hi" "k" =
      Except.error (PyExn.valueError "Key must be 16, 24, or 32 bytes long") :=
  ⟨rfl, (aes_encrypt_key_guard (fun _ b => b) "hi" "k" rfl rfl).1 (by decide)⟩

end SenweaverOAuth
